import Mathlib

/-!
Verification of the GPTSwarm demo coordination core against its
natural-language specification.

The definitions below are a shallow embedding of the Python sources:
 - src/demos/research_assistant_demo.py
   (ResearchTask.analyze_complexity, ResearchTask._estimate_agent_count,
    AgentTeam.form_team, AgentTeam._estimate_performance,
    AdvancedResearchAssistant.get_performance_analytics)
 - src/demos/comprehensive_demo.py
   (ComprehensiveDemo.create_demo_graph, ComprehensiveDemo.simulate_optimization)
 - src/demos/interactive_visualizer.py
   (GraphVisualizer._generate_graph_data)

Python floats are modelled as rationals, Python strings as Lean strings
(queries, which are lower-cased character by character, as lists of
characters), and a Python computation that can raise ZeroDivisionError as
an Option-valued function returning none where the exception is raised.
-/

/-! ## Complexity classifier: ResearchTask.analyze_complexity -/

/-- Python substring primitive: does the text start with the pattern. -/
def prefixMatch : List Char → List Char → Bool
  | [], _ => true
  | _ :: _, [] => false
  | p :: ps, t :: ts => p == t && prefixMatch ps ts

/-- Python substring test: the operator (pattern in text) on strings. -/
def strContains : List Char → List Char → Bool
  | [], pat => prefixMatch pat []
  | t :: ts, pat => prefixMatch pat (t :: ts) || strContains ts pat

/-- The high-tier complexity indicator words of analyze_complexity. -/
def high_indicators : List (List Char) :=
  ["compare", "analyze", "evaluate", "synthesize", "integrate",
   "comprehensive"].map String.toList

/-- The medium-tier complexity indicator words of analyze_complexity. -/
def medium_indicators : List (List Char) :=
  ["explain", "describe", "summarize", "overview", "review"].map String.toList

/-- The low-tier complexity indicator words of analyze_complexity. -/
def low_indicators : List (List Char) :=
  ["what", "when", "where", "who", "define", "list"].map String.toList

/-- Number of indicator words of one tier occurring in the lower-cased
query (the sum building complexity_scores in analyze_complexity). -/
def indicator_score (inds : List (List Char)) (query_lower : List Char) : Nat :=
  inds.countP (fun ind => strContains query_lower ind)

/-- The complexity tier computed by ResearchTask.analyze_complexity:
lower-case the query, count indicator matches per tier, then resolve by
priority: high if any high indicator matched, else medium if any medium
indicator matched, else low. -/
def analyze_complexity (query : List Char) : String :=
  let query_lower := query.map Char.toLower
  if 0 < indicator_score high_indicators query_lower then "high"
  else if 0 < indicator_score medium_indicators query_lower then "medium"
  else "low"

/-! ## Team formation: ResearchTask._estimate_agent_count, AgentTeam.form_team -/

/-- The base_count lookup of _estimate_agent_count; the dict .get call
falls back to 3 for an unknown complexity string. -/
def base_count (complexity : String) : Nat :=
  if complexity = "low" then 2
  else if complexity = "medium" then 3
  else if complexity = "high" then 4
  else 3

/-- ResearchTask._estimate_agent_count: base count plus floor of half the
skill count, capped at 6. -/
def estimate_agent_count (complexity : String) (skills : List String) : Nat :=
  min (base_count complexity + skills.length / 2) 6

/-- The agent_capabilities dict of AgentTeam.form_team, in its insertion
(iteration) order. -/
def agent_capabilities : List (String × List String) :=
  [("IO", ["research", "general_reasoning", "synthesis"]),
   ("TOT", ["analysis", "deep_reasoning", "planning"]),
   ("WEB", ["web_search", "information_gathering", "fact_checking"]),
   ("CODE", ["coding", "technical_analysis", "algorithm_design"]),
   ("CREATIVE", ["creativity", "brainstorming", "design"]),
   ("CRITIC", ["evaluation", "quality_check", "verification"])]

/-- One step of the skill loop in form_team: append the first catalog
agent type whose capabilities contain the skill and that is not yet
selected; leave the selection unchanged when none matches. -/
def select_for_skill (selected : List String) (skill : String) : List String :=
  match agent_capabilities.find?
      (fun p => p.2.contains skill && !(selected.contains p.1)) with
  | some p => selected ++ [p.1]
  | none => selected

/-- The selection phase of form_team: start from the coordinator IO agent,
run the skill loop, then force-append TOT for high complexity when absent. -/
def selected_agents (complexity : String) (skills : List String) : List String :=
  let after_skills := skills.foldl select_for_skill ["IO"]
  if complexity = "high" && !(after_skills.contains "TOT") then
    after_skills ++ ["TOT"]
  else after_skills

/-- The agents list produced by AgentTeam.form_team: select, pad with IO
agents up to the estimated agent count, and truncate to that count. -/
def form_team_agents (complexity : String) (skills : List String) : List String :=
  let agent_count := estimate_agent_count complexity skills
  let sel := selected_agents complexity skills
  (sel ++ List.replicate (agent_count - sel.length) "IO").take agent_count

/-! ## Performance estimate: AgentTeam._estimate_performance -/

/-- The agent_skill_map dict of _estimate_performance, in insertion order. -/
def agent_skill_map : List (String × List String) :=
  [("IO", ["research", "synthesis"]),
   ("TOT", ["analysis", "deep_reasoning"]),
   ("WEB", ["web_search", "information_gathering"]),
   ("CODE", ["coding", "technical_analysis"]),
   ("CREATIVE", ["creativity", "design"]),
   ("CRITIC", ["evaluation", "verification"])]

/-- The dict .get(agent, []) lookup on agent_skill_map. -/
def map_skills (agent : String) : List String :=
  ((agent_skill_map.find? (fun p => p.1 == agent)).map Prod.snd).getD []

/-- The skill_coverage loop of _estimate_performance: for each required
skill, count one when some selected agent's mapped skills list it (the
inner loop breaks at the first such agent). -/
def skill_coverage (agents skills : List String) : Nat :=
  skills.countP (fun skill => agents.any (fun a => (map_skills a).contains skill))

/-- AgentTeam._estimate_performance: base 0.6 plus a skill bonus and a
team-size bonus, capped at 1.0. -/
def estimate_performance (agents skills : List String) : ℚ :=
  min ((6 : ℚ) / 10
        + ((skill_coverage agents skills : ℚ) / (max skills.length 1 : Nat)) * (3 / 10)
        + min ((agents.length : ℚ) / 4) 1 * (1 / 10)) 1

/-- Predicted performance as worded by the specification, for comparison
with the source formula: min(0.6 + 0.3*(skillsCovered/max(skillCount,1))
+ 0.1*min(teamSize/4, 1), 1.0). -/
def spec_predicted_performance (agents skills : List String) : ℚ :=
  min ((6 : ℚ) / 10
        + (3 / 10) * ((skill_coverage agents skills : ℚ) / (max skills.length 1 : Nat))
        + (1 / 10) * min ((agents.length : ℚ) / 4) 1) 1

/-! ## Convergence simulator: ComprehensiveDemo.simulate_optimization -/

/-- The optimization loop of simulate_optimization with its remaining
iteration budget: compute the improved value clamped to the target, append
it, and stop once it reaches 95 percent of the target. -/
def simLoop (target : ℚ) : Nat → ℚ → List ℚ
  | 0, _ => []
  | n + 1, current =>
    let next := min (current + ((target - current) * (15 / 100) + 1 / 100)) target
    next :: (if target * (95 / 100) ≤ next then [] else simLoop target n next)

/-- ComprehensiveDemo.simulate_optimization: the performance history
starting from the initial value, with at most 10 improvement iterations. -/
def simulate_optimization (initial target : ℚ) : List ℚ :=
  initial :: simLoop target 10 initial

/-! ## Topology builders -/

/-- Float division as Python performs it: none models ZeroDivisionError. -/
def qdiv? (a b : ℚ) : Option ℚ := if b = 0 then none else some (a / b)

/-- ComprehensiveDemo.create_demo_graph, reduced to its observable
(edges, connectivity) pair; the number of nodes is the length of the
agents list. Edge counts are Python ints, hence integers. -/
def create_demo_graph (agents : List String) (connections : String) : Option (ℤ × ℚ) :=
  let n : ℤ := agents.length
  if connections = "sequential" then
    (qdiv? ((n : ℚ) - 1) ((n : ℚ) * ((n : ℚ) - 1) / 2)).map (fun c => (n - 1, c))
  else if connections = "full" then
    some (n * (n - 1) / 2, 1)
  else if connections = "hub" then
    (qdiv? ((n : ℚ) - 1) ((n : ℚ) * ((n : ℚ) - 1) / 2)).map (fun c => (n - 1, c))
  else
    some (n, 1 / 2)

/-- A node of GraphVisualizer._generate_graph_data. -/
structure VisNode where
  id : Nat
  label : String
  type : String
  color : String
  size : Nat
deriving DecidableEq

/-- An edge of GraphVisualizer._generate_graph_data. -/
structure VisEdge where
  id : Nat
  fromNode : Nat
  toNode : Nat
  weight : ℚ
  color : String
deriving DecidableEq

/-- The graph structure returned by _generate_graph_data, including its
stats block. -/
structure VisGraph where
  nodes : List VisNode
  edges : List VisEdge
  num_nodes : Nat
  num_edges : Nat
  connectivity : ℚ

/-- GraphVisualizer._get_agent_color with its default color. -/
def get_agent_color (agent_type : String) : String :=
  (([("IO", "#FF6B6B"), ("TOT", "#4ECDC4"), ("COT", "#45B7D1"),
     ("WEB", "#96CEB4"), ("TOOL", "#FFEAA7")].find?
      (fun p => p.1 == agent_type)).map Prod.snd).getD "#DDA0DD"

/-- The node-building loop of _generate_graph_data. -/
def vis_nodes (agents : List String) : List VisNode :=
  agents.enum.map (fun p =>
    ⟨p.1, p.2 ++ "_" ++ toString p.1, p.2, get_agent_color p.2,
     if p.2 = "TOT" then 20 else 15⟩)

/-- The edge-building branches of _generate_graph_data: consecutive pairs
for sequential, all unordered pairs for full, node 0 to every other node
for hub, and no edges for any other label. -/
def vis_edges (n : Nat) (connections : String) : List VisEdge :=
  if connections = "sequential" then
    (List.range (n - 1)).map (fun i => ⟨i, i, i + 1, 8 / 10, "#2E8B57"⟩)
  else if connections = "full" then
    ((List.range n).flatMap
        (fun i => (List.range' (i + 1) (n - (i + 1))).map (fun j => (i, j)))).enum.map
      (fun e => ⟨e.1, e.2.1, e.2.2, 6 / 10, "#4169E1"⟩)
  else if connections = "hub" then
    (List.range' 1 (n - 1)).map (fun i => ⟨i - 1, 0, i, 7 / 10, "#DC143C"⟩)
  else []

/-- GraphVisualizer._generate_graph_data: nodes, edges, and the stats
block, whose connectivity guards the division with the node count. -/
def generate_graph_data (agents : List String) (connections : String) : VisGraph :=
  let n := agents.length
  let edges := vis_edges n connections
  { nodes := vis_nodes agents
    edges := edges
    num_nodes := n
    num_edges := edges.length
    connectivity :=
      if 1 < n then (edges.length : ℚ) / ((n : ℚ) * ((n : ℚ) - 1) / 2) else 0 }

/-! ## Analytics: AdvancedResearchAssistant.get_performance_analytics -/

/-- One completed-task record as the analytics code reads it: the
complexity tier from the task analysis, the team's collaboration pattern,
and the final execution performance. -/
structure TaskRecord where
  tier : String
  pattern : String
  perf : ℚ
deriving DecidableEq

/-- The fixed keys of the complexity_stats dict. -/
def tiers : List String := ["low", "medium", "high"]

/-- The performances collected per complexity tier, in task order. -/
def tier_perfs (records : List TaskRecord) (t : String) : List ℚ :=
  (records.filter (fun r => r.tier = t)).map (fun r => r.perf)

/-- The complexity_averages entry for one tier: the mean when any record
exists, 0.0 otherwise. -/
def tier_avg (records : List TaskRecord) (t : String) : ℚ :=
  let ps := tier_perfs records t
  if ps = [] then 0 else ps.sum / ps.length

/-- The keys of the team_patterns dict in first-encounter insertion order. -/
def pattern_keys (records : List TaskRecord) : List String :=
  records.foldl (fun ks r => if r.pattern ∈ ks then ks else ks ++ [r.pattern]) []

/-- The performances collected per collaboration pattern, in task order. -/
def pattern_perfs (records : List TaskRecord) (p : String) : List ℚ :=
  (records.filter (fun r => r.pattern = p)).map (fun r => r.perf)

/-- The pattern_averages entry for one pattern key. -/
def pattern_avg (records : List TaskRecord) (p : String) : ℚ :=
  (pattern_perfs records p).sum / (pattern_perfs records p).length

/-- The best_performing_pattern selection: Python max over the
pattern_averages items keyed by the average, which returns the first key
attaining the maximal average, and None when there are no patterns. -/
def best_performing_pattern (records : List TaskRecord) : Option String :=
  (((pattern_keys records).map (fun p => (p, pattern_avg records p))).argmax
      Prod.snd).map Prod.fst

/-- The analytics dictionary assembled by get_performance_analytics. -/
structure Analytics where
  total_tasks : Nat
  success_rate : ℚ
  average_performance : ℚ
  complexity_performance : List (String × ℚ)
  team_pattern_performance : List (String × ℚ)
  best_pattern : Option String

/-- AdvancedResearchAssistant.get_performance_analytics: the no-data
sentinel (none) for an empty history, otherwise the aggregated report.
A task is successful when its final performance is strictly above 0.7,
the flag stored by process_research_query. -/
def get_performance_analytics (records : List TaskRecord) : Option Analytics :=
  if records = [] then none
  else some
    { total_tasks := records.length
      success_rate := (records.countP (fun r => (7 : ℚ) / 10 < r.perf) : ℚ) / records.length
      average_performance := (records.map (fun r => r.perf)).sum / records.length
      complexity_performance := tiers.map (fun t => (t, tier_avg records t))
      team_pattern_performance :=
        (pattern_keys records).map (fun p => (p, pattern_avg records p))
      best_pattern := best_performing_pattern records }

/-! ## Helper lemmas -/

theorem simLoop_succ (t c : ℚ) (n : Nat) :
    simLoop t (n + 1) c =
      min (c + ((t - c) * (15 / 100) + 1 / 100)) t ::
        (if t * (95 / 100) ≤ min (c + ((t - c) * (15 / 100) + 1 / 100)) t then []
         else simLoop t n (min (c + ((t - c) * (15 / 100) + 1 / 100)) t)) := rfl

/-! ## Claims C1 and C4: the convergence simulator -/

unseal Rat.mul Rat.inv Rat.add Rat.sub in
/-- Claim C1, counterexample: at initial 0.9 and target 0.85 the trace is
not the one-element list holding only the initial value; the loop body
runs once, appending the clamped value 0.85 before the early exit fires. -/
theorem C1_counterexample :
    simulate_optimization (9 / 10) (17 / 20) ≠ [9 / 10] := by decide

/-- Claim C1 as amended: when initial is at least a nonnegative target,
simulate_optimization performs exactly one improvement iteration, whose
clamp yields the target, and returns the two-element trace of the initial
value followed by the target. -/
theorem C1_initial_ge_target (initial target : ℚ)
    (h0 : 0 ≤ target) (h : target ≤ initial) :
    simulate_optimization initial target = [initial, target] := by
  unfold simulate_optimization
  rw [show (10 : Nat) = 9 + 1 from rfl, simLoop_succ]
  have hmin : min (initial + ((target - initial) * (15 / 100) + 1 / 100)) target
      = target := min_eq_right (by linarith)
  rw [hmin, if_pos (by linarith)]

/-- Witness for C1_initial_ge_target at initial 0.9, target 0.85. -/
theorem C1_initial_ge_target_witness :
    (0 : ℚ) ≤ 17 / 20 ∧ (17 / 20 : ℚ) ≤ 9 / 10 ∧
      simulate_optimization (9 / 10) (17 / 20) = [9 / 10, 17 / 20] :=
  ⟨by norm_num, by norm_num,
    C1_initial_ge_target (9 / 10) (17 / 20) (by norm_num) (by norm_num)⟩

unseal Rat.mul Rat.inv Rat.add Rat.sub in
/-- Claim C4: the trace of simulate_optimization at initial 0.65 and
target 0.85 starts at 0.65, is non-decreasing, stays at most 0.85, takes
at most 10 improvement steps, and ends at or above 0.8075 (95 percent of
the target). -/
theorem C4_trace_properties :
    (simulate_optimization (65 / 100) (85 / 100)).head? = some (65 / 100) ∧
    List.Pairwise (· ≤ ·) (simulate_optimization (65 / 100) (85 / 100)) ∧
    (∀ x ∈ simulate_optimization (65 / 100) (85 / 100), x ≤ 85 / 100) ∧
    (simulate_optimization (65 / 100) (85 / 100)).length ≤ 11 ∧
    (323 / 400 : ℚ) ≤ ((simulate_optimization (65 / 100) (85 / 100)).getLast?).getD 0 := by
  decide

/-! ## Claim C5: high-tier indicators take priority -/

/-- Claim C5: any query containing a high-tier indicator word (as a
substring of its lower-cased text) is classified high, whatever other
indicators occur. -/
theorem C5_high_indicator_priority (query ind : List Char)
    (h1 : ind ∈ high_indicators)
    (h2 : strContains (query.map Char.toLower) ind = true) :
    analyze_complexity query = "high" := by
  unfold analyze_complexity
  rw [if_pos]
  exact List.countP_pos_iff.mpr ⟨ind, h1, h2⟩

/-- Witness for C5_high_indicator_priority on a concrete query holding
the high indicator word compare together with a low indicator word. -/
theorem C5_high_indicator_priority_witness :
    "compare".toList ∈ high_indicators ∧
    strContains ("What to Compare".toList.map Char.toLower) "compare".toList = true ∧
    analyze_complexity "What to Compare".toList = "high" :=
  ⟨by decide, by decide,
    C5_high_indicator_priority "What to Compare".toList "compare".toList
      (by decide) (by decide)⟩

/-! ## Team-formation lemmas -/

theorem select_for_skill_append (selected : List String) (skill : String) :
    ∃ r, select_for_skill selected skill = selected ++ r := by
  unfold select_for_skill
  cases h : agent_capabilities.find?
      (fun p => p.2.contains skill && !(selected.contains p.1)) with
  | none => exact ⟨[], by simp⟩
  | some p => exact ⟨[p.1], rfl⟩

theorem foldl_select_append (skills : List String) :
    ∀ acc, ∃ r, skills.foldl select_for_skill acc = acc ++ r := by
  induction skills with
  | nil => exact fun acc => ⟨[], by simp⟩
  | cons s ss ih =>
    intro acc
    obtain ⟨r₁, h₁⟩ := select_for_skill_append acc s
    obtain ⟨r₂, h₂⟩ := ih (select_for_skill acc s)
    exact ⟨r₁ ++ r₂, by rw [List.foldl_cons, h₂, h₁, List.append_assoc]⟩

theorem selected_agents_head (complexity : String) (skills : List String) :
    ∃ r, selected_agents complexity skills = "IO" :: r := by
  unfold selected_agents
  obtain ⟨r, hr⟩ := foldl_select_append skills ["IO"]
  simp only [hr, List.cons_append, List.nil_append]
  split
  · exact ⟨r ++ ["TOT"], rfl⟩
  · exact ⟨r, rfl⟩

theorem base_count_ge_two (complexity : String) : 2 ≤ base_count complexity := by
  unfold base_count
  split
  · omega
  · split
    · omega
    · split <;> omega

theorem estimate_agent_count_ge_two (complexity : String) (skills : List String) :
    2 ≤ estimate_agent_count complexity skills := by
  have := base_count_ge_two complexity
  unfold estimate_agent_count
  omega

theorem estimate_agent_count_le_six (complexity : String) (skills : List String) :
    estimate_agent_count complexity skills ≤ 6 := by
  unfold estimate_agent_count
  omega

theorem form_team_agents_length (complexity : String) (skills : List String) :
    (form_team_agents complexity skills).length
      = estimate_agent_count complexity skills := by
  unfold form_team_agents
  rw [List.length_take, List.length_append, List.length_replicate]
  omega

theorem form_team_agents_head (complexity : String) (skills : List String) :
    (form_team_agents complexity skills).head? = some "IO" := by
  obtain ⟨r, hr⟩ := selected_agents_head complexity skills
  obtain ⟨m, hm⟩ : ∃ m, estimate_agent_count complexity skills = m + 1 :=
    ⟨estimate_agent_count complexity skills - 1,
      by have := estimate_agent_count_ge_two complexity skills; omega⟩
  unfold form_team_agents
  rw [hr, hm]
  simp only [List.cons_append, List.take_succ_cons, List.head?_cons]

/-! ## Claims C6 and C10: team size and composition -/

/-- Claim C6: for the three complexity tiers, the team returned by
form_team has length min(base + floor(skillCount / 2), 6) with base 2, 3,
4 for low, medium, high respectively, and that length always lies in the
range one to six. -/
theorem C6_team_size (tier : String) (skills : List String)
    (h : tier = "low" ∨ tier = "medium" ∨ tier = "high") :
    (form_team_agents tier skills).length
      = min ((if tier = "low" then 2 else if tier = "medium" then 3 else 4)
              + skills.length / 2) 6 ∧
    1 ≤ (form_team_agents tier skills).length ∧
    (form_team_agents tier skills).length ≤ 6 := by
  have hl := form_team_agents_length tier skills
  have h2 := estimate_agent_count_ge_two tier skills
  have h6 := estimate_agent_count_le_six tier skills
  refine ⟨?_, by omega, by omega⟩
  rw [hl]
  rcases h with rfl | rfl | rfl <;> rfl

/-- Witness for C6_team_size at tier high with three skills. -/
theorem C6_team_size_witness :
    ("high" = "low" ∨ "high" = "medium" ∨ "high" = "high") ∧
    ((form_team_agents "high" ["research", "analysis", "coding"]).length
        = min ((if "high" = "low" then 2 else if "high" = "medium" then 3 else 4)
                + (["research", "analysis", "coding"] : List String).length / 2) 6 ∧
      1 ≤ (form_team_agents "high" ["research", "analysis", "coding"]).length ∧
      (form_team_agents "high" ["research", "analysis", "coding"]).length ≤ 6) :=
  ⟨Or.inr (Or.inr rfl),
    C6_team_size "high" ["research", "analysis", "coding"] (Or.inr (Or.inr rfl))⟩

/-- Claim C10: the team is never empty, always starts with the coordinator
agent IO, and its length is exactly the estimated target team size. -/
theorem C10_team_invariants (tier : String) (skills : List String) :
    form_team_agents tier skills ≠ [] ∧
    (form_team_agents tier skills).head? = some "IO" ∧
    (form_team_agents tier skills).length = estimate_agent_count tier skills := by
  refine ⟨?_, form_team_agents_head tier skills, form_team_agents_length tier skills⟩
  intro hnil
  have := form_team_agents_head tier skills
  rw [hnil] at this
  exact Option.noConfusion this

/-! ## Claim C8: the performance formula -/

/-- Claim C8: the source performance estimate agrees with the
specification formula min(0.6 + 0.3*(skillsCovered/max(skillCount,1)) +
0.1*min(teamSize/4, 1), 1.0), and its value always lies in the unit
interval. -/
theorem C8_predicted_performance (agents skills : List String) :
    estimate_performance agents skills = spec_predicted_performance agents skills ∧
    0 ≤ estimate_performance agents skills ∧
    estimate_performance agents skills ≤ 1 := by
  refine ⟨?_, ?_, min_le_right _ _⟩
  · unfold estimate_performance spec_predicted_performance
    congr 1
    ring
  · unfold estimate_performance
    have hc : (0 : ℚ) ≤ (skill_coverage agents skills : ℚ) := by positivity
    have hm : (0 : ℚ) < ((max skills.length 1 : Nat) : ℚ) := by
      have : 1 ≤ max skills.length 1 := le_max_right _ _
      exact_mod_cast Nat.lt_of_lt_of_le Nat.zero_lt_one this
    have hmin : (0 : ℚ) ≤ min ((agents.length : ℚ) / 4) 1 :=
      le_min (by positivity) zero_le_one
    refine le_min ?_ zero_le_one
    have := div_nonneg hc hm.le
    nlinarith

/-! ## Graph lemmas -/

theorem generate_edges (agents : List String) (conn : String) :
    (generate_graph_data agents conn).edges = vis_edges agents.length conn := rfl

theorem generate_connectivity_formula (agents : List String) (conn : String) :
    (generate_graph_data agents conn).connectivity =
      if 1 < agents.length
      then ((vis_edges agents.length conn).length : ℚ) /
        ((agents.length : ℚ) * ((agents.length : ℚ) - 1) / 2)
      else 0 := rfl

theorem list_range_map_sum (f : Nat → Nat) (n : Nat) :
    ((List.range n).map f).sum = ∑ i ∈ Finset.range n, f i := by
  induction n with
  | zero => simp
  | succ n ih =>
    rw [List.range_succ, List.map_append, List.sum_append, Finset.sum_range_succ, ih]
    simp

theorem vis_edges_full_length (n : Nat) :
    (vis_edges n "full").length = n * (n - 1) / 2 := by
  unfold vis_edges
  rw [if_neg (by decide), if_pos rfl, List.length_map, List.enum_length,
    List.flatMap_def, List.length_flatten, List.map_map]
  have hmap : (List.range n).map
        (List.length ∘ fun i => (List.range' (i + 1) (n - (i + 1))).map (fun j => (i, j)))
      = (List.range n).map (fun i => n - (i + 1)) := by
    apply List.map_congr_left
    intro i _
    simp [Function.comp, List.length_map, List.length_range']
  rw [hmap, list_range_map_sum]
  have hcongr : ∑ i ∈ Finset.range n, (n - (i + 1)) = ∑ i ∈ Finset.range n, (n - 1 - i) :=
    Finset.sum_congr rfl (fun i _ => by omega)
  rw [hcongr, Finset.sum_range_reflect (fun i => i) n, Finset.sum_range_id]

theorem vis_edges_sequential_length (n : Nat) :
    (vis_edges n "sequential").length = n - 1 := by
  unfold vis_edges
  rw [if_pos rfl, List.length_map, List.length_range]

/-! ## Claim C9: full and sequential topologies -/

/-- Claim C9: the full pattern yields n(n-1)/2 edges and, for two or more
nodes, connectivity 1; the sequential pattern yields n-1 edges; the
comprehensive demo's builder agrees on the full pattern. -/
theorem C9_full_sequential_edge_counts (agents : List String) :
    (generate_graph_data agents "full").edges.length
      = agents.length * (agents.length - 1) / 2 ∧
    (2 ≤ agents.length → (generate_graph_data agents "full").connectivity = 1) ∧
    (generate_graph_data agents "sequential").edges.length = agents.length - 1 ∧
    create_demo_graph agents "full"
      = some ((agents.length : ℤ) * ((agents.length : ℤ) - 1) / 2, 1) := by
  refine ⟨?_, ?_, ?_, ?_⟩
  · rw [generate_edges, vis_edges_full_length]
  · intro h2
    rw [generate_connectivity_formula, if_pos (by omega), vis_edges_full_length]
    have h1 : (agents.length - 1) + 1 = agents.length := by omega
    have heven := Nat.even_mul_succ_self (agents.length - 1)
    rw [h1] at heven
    obtain ⟨k, hk⟩ := heven
    have hk' : agents.length * (agents.length - 1) = k + k := by
      rw [Nat.mul_comm]; exact hk
    have hdiv : agents.length * (agents.length - 1) / 2 = k := by omega
    have hkpos : 0 < k := by
      have hge : 2 ≤ agents.length * (agents.length - 1) := by
        have hone : 1 ≤ agents.length - 1 := by omega
        calc 2 = 2 * 1 := by norm_num
        _ ≤ agents.length * (agents.length - 1) := Nat.mul_le_mul (by omega) hone
      omega
    have hsub : ((agents.length - 1 : Nat) : ℚ) = (agents.length : ℚ) - 1 := by
      have hone : (1 : Nat) ≤ agents.length := by omega
      push_cast [Nat.cast_sub hone]
      ring
    have hcast : ((agents.length : ℚ) * ((agents.length : ℚ) - 1) / 2) = (k : ℚ) := by
      rw [← hsub, ← Nat.cast_mul, hk']
      push_cast
      ring
    rw [hdiv, hcast]
    exact div_self (by exact_mod_cast hkpos.ne')
  · rw [generate_edges, vis_edges_sequential_length]
  · simp [create_demo_graph]

/-- Witness for C9_full_sequential_edge_counts on a four-node team. -/
theorem C9_full_sequential_edge_counts_witness :
    2 ≤ (["IO", "TOT", "WEB", "CODE"] : List String).length ∧
    (generate_graph_data ["IO", "TOT", "WEB", "CODE"] "full").connectivity = 1 :=
  ⟨by decide,
    (C9_full_sequential_edge_counts ["IO", "TOT", "WEB", "CODE"]).2.1 (by decide)⟩

/-! ## Claim C2: connectivity ratio totality -/

unseal Rat.mul Rat.inv Rat.add Rat.sub in
/-- Claim C2, counterexample: for a single-node sequential graph the
comprehensive demo's builder divides zero by zero (a ZeroDivisionError in
the source, modelled as none), so the connectivity ratio is not computed
without failing there. -/
theorem C2_counterexample :
    create_demo_graph ["IO"] "sequential" = none := by decide

/-- Claim C2 as amended: the visualizer's builder always computes the
connectivity ratio, as 0 for at most one node and as
edgeCount / (n(n-1)/2) for more; the comprehensive demo's builder is only
guaranteed to succeed for two or more nodes. -/
theorem C2_connectivity_totality (agents : List String) (conn : String) :
    (agents.length ≤ 1 → (generate_graph_data agents conn).connectivity = 0) ∧
    (1 < agents.length → (generate_graph_data agents conn).connectivity
        = ((generate_graph_data agents conn).edges.length : ℚ) /
            ((agents.length : ℚ) * ((agents.length : ℚ) - 1) / 2)) ∧
    (2 ≤ agents.length → (create_demo_graph agents conn).isSome = true) := by
  refine ⟨?_, ?_, ?_⟩
  · intro h1
    rw [generate_connectivity_formula, if_neg (by omega)]
  · intro h1
    rw [generate_connectivity_formula, if_pos h1, generate_edges]
  · intro h2
    have h2q : (2 : ℚ) ≤ (((agents.length : ℤ) : ℚ)) := by exact_mod_cast h2
    have hq : (((agents.length : ℤ) : ℚ) * (((agents.length : ℤ) : ℚ) - 1) / 2) ≠ 0 := by
      have hpos : (0 : ℚ) < ((agents.length : ℤ) : ℚ) * (((agents.length : ℤ) : ℚ) - 1) / 2 := by
        nlinarith
      exact hpos.ne'
    simp only [create_demo_graph]
    by_cases hs : conn = "sequential"
    · rw [if_pos hs]
      unfold qdiv?
      rw [if_neg hq]
      rfl
    · rw [if_neg hs]
      by_cases hf : conn = "full"
      · rw [if_pos hf]
        rfl
      · rw [if_neg hf]
        by_cases hh : conn = "hub"
        · rw [if_pos hh]
          unfold qdiv?
          rw [if_neg hq]
          rfl
        · rw [if_neg hh]
          rfl

/-- Witness for C2_connectivity_totality on concrete hub graphs. -/
theorem C2_connectivity_totality_witness :
    (generate_graph_data ["IO"] "hub").connectivity = 0 ∧
    (generate_graph_data ["IO", "TOT"] "hub").connectivity
        = (((generate_graph_data ["IO", "TOT"] "hub").edges.length : ℚ) /
            (((["IO", "TOT"] : List String).length : ℚ)
              * (((["IO", "TOT"] : List String).length : ℚ) - 1) / 2)) ∧
    (create_demo_graph ["IO", "TOT"] "hub").isSome = true :=
  ⟨(C2_connectivity_totality ["IO"] "hub").1 (by decide),
   (C2_connectivity_totality ["IO", "TOT"] "hub").2.1 (by decide),
   (C2_connectivity_totality ["IO", "TOT"] "hub").2.2 (by decide)⟩

/-! ## Claim C3: the unrecognized-pattern fallback -/

unseal Rat.mul Rat.inv Rat.add Rat.sub in
/-- Claim C3, counterexample: on the unrecognized pattern pipeline with
three nodes the visualizer's builder does not return three edges with
connectivity 0.5; it returns an empty edge list with connectivity 0. -/
theorem C3_counterexample :
    ¬ ((generate_graph_data ["IO", "TOT", "WEB"] "pipeline").edges.length = 3 ∧
       (generate_graph_data ["IO", "TOT", "WEB"] "pipeline").connectivity = 1 / 2) := by
  decide

/-- Claim C3 as amended: for every pattern label other than the three
recognized ones, neither builder crashes; the comprehensive demo's builder
returns the placeholder of one edge per node with connectivity 0.5, while
the visualizer's builder returns no edges and connectivity 0. -/
theorem C3_unrecognized_fallback (agents : List String) (conn : String)
    (h1 : conn ≠ "sequential") (h2 : conn ≠ "full") (h3 : conn ≠ "hub") :
    create_demo_graph agents conn = some ((agents.length : ℤ), 1 / 2) ∧
    (generate_graph_data agents conn).edges = [] ∧
    (generate_graph_data agents conn).connectivity = 0 := by
  have he : vis_edges agents.length conn = [] := by
    unfold vis_edges
    rw [if_neg h1, if_neg h2, if_neg h3]
  refine ⟨?_, ?_, ?_⟩
  · simp only [create_demo_graph]
    rw [if_neg h1, if_neg h2, if_neg h3]
  · rw [generate_edges, he]
  · rw [generate_connectivity_formula, he]
    split <;> simp

/-- Witness for C3_unrecognized_fallback at the pipeline pattern. -/
theorem C3_unrecognized_fallback_witness :
    (("pipeline" : String) ≠ "sequential") ∧ (("pipeline" : String) ≠ "full") ∧
    (("pipeline" : String) ≠ "hub") ∧
    (create_demo_graph ["IO", "TOT", "WEB"] "pipeline"
        = some (((["IO", "TOT", "WEB"] : List String).length : ℤ), 1 / 2) ∧
      (generate_graph_data ["IO", "TOT", "WEB"] "pipeline").edges = [] ∧
      (generate_graph_data ["IO", "TOT", "WEB"] "pipeline").connectivity = 0) :=
  ⟨by decide, by decide, by decide,
    C3_unrecognized_fallback ["IO", "TOT", "WEB"] "pipeline"
      (by decide) (by decide) (by decide)⟩

/-! ## Analytics lemmas -/

def example_records : List TaskRecord :=
  [⟨"high", "A", 9 / 10⟩, ⟨"low", "B", 1 / 2⟩]

theorem lookup_map_self (l : List String) (g : String → ℚ) (t : String)
    (h : t ∈ l) : (l.map (fun x => (x, g x))).lookup t = some (g t) := by
  induction l with
  | nil => cases h
  | cons a as ih =>
    rw [List.map_cons, List.lookup_cons]
    by_cases hat : a = t
    · subst hat
      simp
    · have ht : t ∈ as := by
        rcases List.mem_cons.mp h with heq | hmem
        · exact absurd heq.symm hat
        · exact hmem
      rw [beq_false_of_ne (fun heq : t = a => hat heq.symm)]
      exact ih ht

theorem argmax_map_pair_aux (f : String → ℚ) :
    ∀ (l : List String) (o : Option String),
      List.foldl (fun o p => List.argAux (fun b c => Prod.snd c < Prod.snd b) o (p, f p))
          (o.map (fun x => (x, f x))) l
        = (List.foldl (List.argAux fun b c => f c < f b) o l).map (fun x => (x, f x)) := by
  intro l
  induction l with
  | nil => intro o; rfl
  | cons p l ih =>
    intro o
    rw [List.foldl_cons, List.foldl_cons]
    have hstep : List.argAux (fun b c => Prod.snd c < Prod.snd b)
          (o.map (fun x => (x, f x))) (p, f p)
        = (List.argAux (fun b c => f c < f b) o p).map (fun x => (x, f x)) := by
      cases o with
      | none => rfl
      | some q =>
        dsimp [List.argAux]
        by_cases h : f q < f p
        · rw [if_pos h, if_pos h]
          rfl
        · rw [if_neg h, if_neg h]
          rfl
    rw [hstep, ih]

theorem argmax_map_pair (f : String → ℚ) (l : List String) :
    List.argmax Prod.snd (l.map (fun p => (p, f p)))
      = (List.argmax f l).map (fun x => (x, f x)) := by
  unfold List.argmax
  rw [List.foldl_map]
  simpa using argmax_map_pair_aux f l none

theorem argmax_first_split (f : String → ℚ) :
    ∀ (l : List String) (m : String), List.argmax f l = some m →
      ∃ l1 l2, l = l1 ++ m :: l2 ∧ ∀ p ∈ l1, f p < f m := by
  intro l
  induction l with
  | nil =>
    intro m h
    rw [List.argmax_nil] at h
    exact absurd h (by simp)
  | cons a l ih =>
    intro m h
    rw [List.argmax_cons] at h
    cases hl : List.argmax f l with
    | none =>
      rw [hl] at h
      obtain rfl : a = m := by injection h
      exact ⟨[], l, rfl, by simp⟩
    | some c =>
      rw [hl] at h
      dsimp at h
      by_cases hac : f a < f c
      · rw [if_pos hac] at h
        have hcm : c = m := by injection h
        subst hcm
        obtain ⟨l1, l2, hsplit, hlt⟩ := ih c hl
        refine ⟨a :: l1, l2, by rw [hsplit, List.cons_append], ?_⟩
        intro p hp
        rcases List.mem_cons.mp hp with rfl | hpl
        · exact hac
        · exact hlt p hpl
      · rw [if_neg hac] at h
        obtain rfl : a = m := by injection h
        exact ⟨[], l, rfl, by simp⟩

/-! ## Claim C7: the analytics report -/

unseal Rat.mul Rat.inv Rat.add Rat.sub in
/-- Claim C7: the report returns the no-data sentinel on an empty history;
otherwise its success rate is the fraction of records with performance
strictly above 0.7 and any of the three tiers without records averages 0;
the best pattern is a pattern of maximal average performance that is
preceded, in first-encounter insertion order, only by patterns of strictly
smaller average (the first-encountered tie-break); and on the history
[(high, A, 0.9), (low, B, 0.5)] the report yields success rate 0.5,
medium-tier average 0, and best pattern A. -/
theorem C7_analytics_report :
    get_performance_analytics [] = none ∧
    (∀ records, records ≠ [] →
      ∃ a, get_performance_analytics records = some a ∧
        a.success_rate
          = (records.countP (fun r => (7 : ℚ) / 10 < r.perf) : ℚ) / records.length ∧
        (∀ t ∈ tiers, tier_perfs records t = [] →
          a.complexity_performance.lookup t = some 0)) ∧
    (∀ records m, best_performing_pattern records = some m →
      m ∈ pattern_keys records ∧
      (∀ p ∈ pattern_keys records, pattern_avg records p ≤ pattern_avg records m) ∧
      (∃ l1 l2, pattern_keys records = l1 ++ m :: l2 ∧
        ∀ p ∈ l1, pattern_avg records p < pattern_avg records m)) ∧
    ((get_performance_analytics example_records).map Analytics.success_rate
        = some (1 / 2) ∧
      (get_performance_analytics example_records).map
          (fun a => a.complexity_performance.lookup "medium") = some (some 0) ∧
      (get_performance_analytics example_records).map Analytics.best_pattern
        = some (some "A")) := by
  refine ⟨rfl, ?_, ?_, ?_, ?_, ?_⟩
  · intro records hne
    refine ⟨_, by rw [get_performance_analytics, if_neg hne], rfl, ?_⟩
    intro t ht hempty
    have havg : tier_avg records t = 0 := by
      unfold tier_avg
      rw [hempty]
      rfl
    calc (tiers.map (fun t => (t, tier_avg records t))).lookup t
        = some (tier_avg records t) := lookup_map_self tiers _ t ht
      _ = some 0 := by rw [havg]
  · intro records m hm
    unfold best_performing_pattern at hm
    rw [argmax_map_pair (fun q => pattern_avg records q) (pattern_keys records)] at hm
    cases h' : List.argmax (fun q => pattern_avg records q) (pattern_keys records) with
    | none =>
      rw [h'] at hm
      exact absurd hm (by simp)
    | some x =>
      rw [h'] at hm
      simp only [Option.map_some', Option.some.injEq] at hm
      obtain rfl : x = m := hm
      have hmem : x ∈ List.argmax (fun q => pattern_avg records q) (pattern_keys records) := by
        rw [h']
        rfl
      refine ⟨List.argmax_mem hmem, ?_, argmax_first_split _ _ x h'⟩
      intro p hp
      exact List.le_of_mem_argmax hp hmem
  · decide
  · decide
  · decide

unseal Rat.mul Rat.inv Rat.add Rat.sub in
/-- Witness for C7_analytics_report, applying its nonempty-history and
best-pattern clauses to the two-record example history. -/
theorem C7_analytics_report_witness :
    (example_records ≠ [] ∧
      ∃ a, get_performance_analytics example_records = some a ∧
        a.success_rate = (example_records.countP
            (fun r => (7 : ℚ) / 10 < r.perf) : ℚ) / example_records.length ∧
        (∀ t ∈ tiers, tier_perfs example_records t = [] →
          a.complexity_performance.lookup t = some 0)) ∧
    (best_performing_pattern example_records = some "A" ∧
      "A" ∈ pattern_keys example_records ∧
      (∀ p ∈ pattern_keys example_records,
        pattern_avg example_records p ≤ pattern_avg example_records "A") ∧
      (∃ l1 l2, pattern_keys example_records = l1 ++ "A" :: l2 ∧
        ∀ p ∈ l1, pattern_avg example_records p < pattern_avg example_records "A")) := by
  have hbest : best_performing_pattern example_records = some "A" := by decide
  exact ⟨⟨by decide, C7_analytics_report.2.1 example_records (by decide)⟩,
    ⟨hbest, C7_analytics_report.2.2.1 example_records "A" hbest⟩⟩
